import Mathlib

/-!
Verification of `tools/build_site.py` (Models Got Talent static-site builder).

The script is embedded shallowly: a pandas `DataFrame` becomes a `Table`
(a list of column names plus rows of cells), a cell becomes a `Value`
(string, rational number, NaN or +infinity), and each stage of the script
(`sanitize_and_select_columns`, `generate_html`, the input-path discovery
in `main`, and the CSV write/re-read round trip) becomes a Lean function
over these types.  Operations that can raise in Python (`df[col]` on a
missing column) return `Except String _`.
-/

namespace BuildSite

/-- A cell of the dataframe: Python string, number (modelled as `ℚ`),
NaN (pandas missing value) or `+inf` (`float('inf')`). -/
inductive Value where
  | vStr (s : String)
  | vNum (q : ℚ)
  | vNaN
  | vInf
deriving DecidableEq, Repr

/-- A dataframe: named columns and rows of cells, row `r`'s cell for
column `cols[i]` is `r[i]`. -/
structure Table where
  cols : List String
  rows : List (List Value)
deriving DecidableEq, Repr

/-- Cell of a row at position `i` (absent positions read as NaN). -/
def cellAt (r : List Value) (i : Nat) : Value := r.getD i Value.vNaN

/-- Cell of a row under a column name, looked up through the table's
column list (`df.loc[row, c]`; NaN when the column is absent). -/
def getCol (cols : List String) (r : List Value) (c : String) : Value :=
  match cols, r with
  | c' :: cols', v :: r' => if c' = c then v else getCol cols' r' c
  | _, _ => Value.vNaN

/-- `desired_columns` of `sanitize_and_select_columns`. -/
def desired_columns : List String :=
  ["model_id", "dataset", "model_family", "model_type",
   "best_val_accuracy", "best_test_accuracy", "val_loss", "test_loss",
   "parameter_count", "training_time_hours"]

/-- The nine allow-listed columns after `model_id`. -/
def restColumns : List String :=
  ["dataset", "model_family", "model_type",
   "best_val_accuracy", "best_test_accuracy", "val_loss", "test_loss",
   "parameter_count", "training_time_hours"]

/-- `numeric_columns` of `sanitize_and_select_columns`. -/
def numeric_columns : List String :=
  ["best_val_accuracy", "best_test_accuracy", "val_loss", "test_loss",
   "parameter_count", "training_time_hours"]

/-- The `fillna` dictionary: per-column default used for missing values. -/
def fillDefault : String → Option Value
  | "best_val_accuracy" => some (Value.vNum 0)
  | "best_test_accuracy" => some (Value.vNum 0)
  | "val_loss" => some Value.vInf
  | "test_loss" => some Value.vInf
  | "parameter_count" => some (Value.vNum 0)
  | "training_time_hours" => some (Value.vNum 0)
  | _ => none

/-- Digits of a numeral read as a natural number. -/
def natOfDigits (cs : List Char) : Nat :=
  cs.foldl (fun n c => n * 10 + (c.toNat - ('0').toNat)) 0

/-- Unsigned decimal numeral: digits, optionally split by one point,
at least one digit overall (`"1"`, `"1.5"`, `"1."`, `".5"`). -/
def parseUnsigned (cs : List Char) : Option ℚ :=
  let ip := cs.takeWhile Char.isDigit
  let rest := cs.dropWhile Char.isDigit
  match rest with
  | [] => if ip.isEmpty then none else some ((natOfDigits ip : ℚ))
  | '.' :: fp =>
      if fp.all Char.isDigit && !(ip.isEmpty && fp.isEmpty) then
        some ((natOfDigits ip : ℚ) + (natOfDigits fp : ℚ) / (10 : ℚ) ^ fp.length)
      else none
  | _ => none

/-- Python `str.strip()` (also used for surrounding-whitespace removal
in numeric parsing): drop whitespace from both ends. -/
def pyStrip (s : String) : String :=
  String.mk (((s.data.dropWhile Char.isWhitespace).reverse.dropWhile Char.isWhitespace).reverse)

/-- Numeric parsing underlying `pd.to_numeric(..., errors='coerce')`:
surrounding whitespace is ignored, an optional sign precedes a decimal
numeral.  (Exponent and infinity spellings are not modelled; no claim
depends on them.) -/
def parsePyNumber (s : String) : Option ℚ :=
  match (pyStrip s).data with
  | '-' :: cs => (parseUnsigned cs).map (fun q => -q)
  | '+' :: cs => parseUnsigned cs
  | cs => parseUnsigned cs

/-- `pd.to_numeric(cell, errors='coerce')` on one cell: numbers and
infinities pass through, strings are parsed, failures become NaN. -/
def to_numeric : Value → Value
  | Value.vStr s => match parsePyNumber s with
      | some q => Value.vNum q
      | none => Value.vNaN
  | v => v

/-- Python `str()` of a cell, as applied by `.astype(str)`: NaN prints
as `"nan"`, infinity as `"inf"`.  (The exact numeral chosen for a
rational is irrelevant to every claim; it is never empty.) -/
def pyStr : Value → String
  | Value.vStr s => s
  | Value.vNaN => "nan"
  | Value.vInf => "inf"
  | Value.vNum q => toString q.num ++ (if q.den == 1 then "" else "/" ++ toString q.den)

/-- Columns of the allow-list present in the input
(`available_columns`), in allow-list order. -/
def availableCols (t : Table) : List String :=
  desired_columns.filter (fun c => t.cols.contains c)

/-- The allow-list columns absent from the input (the `missing` set,
kept in allow-list order). -/
def missingCols (t : Table) : List String :=
  desired_columns.filter (fun c => !(t.cols.contains c))

/-- The two lines printed when allow-listed columns are missing:
the missing set and the input's full column list. -/
structure Warn where
  missing : List String
  available : List String
deriving DecidableEq, Repr

/-- `df[available_columns].copy()`: project each row onto the available
columns, in allow-list order. -/
def selectStage (t : Table) : Table :=
  { cols := availableCols t
    rows := t.rows.map (fun r => (availableCols t).map (fun c => getCol t.cols r c)) }

/-- The `pd.to_numeric` loop over `numeric_columns` present in the
selection. -/
def coerceStage (t : Table) : Table :=
  { cols := t.cols
    rows := t.rows.map (fun r =>
      List.zipWith (fun c v => if numeric_columns.contains c then to_numeric v else v) t.cols r) }

/-- `df_selected.fillna({...})`: replace NaN by the column's default
where the dictionary has a key for the column. -/
def fillnaStage (t : Table) : Table :=
  { cols := t.cols
    rows := t.rows.map (fun r =>
      List.zipWith (fun c v =>
        match v, fillDefault c with
        | Value.vNaN, some d => d
        | v, _ => v) t.cols r) }

/-- Lines 72-73: `df_selected['model_id'] = df_selected['model_id'].astype(str).str.strip()`
then filter out rows whose id is the empty string.  Reading the
`model_id` column raises `KeyError` when it is absent. -/
def normalizeIdStage (t : Table) : Except String Table :=
  match t.cols.indexOf? "model_id" with
  | none => Except.error "KeyError: model_id"
  | some i => Except.ok
      { cols := t.cols
        rows := (t.rows.map (fun r => r.set i (Value.vStr (pyStrip (pyStr (cellAt r i)))))).filter
          (fun r => cellAt r i != Value.vStr "") }

/-- Sort key of a cell for `sort_values`: NaN (and the impossible
post-coercion strings) sort after every number, `+inf` before all. -/
def rankOf : Value → Nat
  | Value.vInf => 2
  | Value.vNum _ => 1
  | _ => 0

/-- Numeric part of the sort key. -/
def qOf : Value → ℚ
  | Value.vNum q => q
  | _ => 0

/-- `a` is at most `b` in the ascending numeric order used by
`sort_values` (NaN least, so that it lands last in the descending sort). -/
def keyLE (a b : Value) : Bool :=
  rankOf a < rankOf b || (rankOf a == rankOf b && decide (qOf a ≤ qOf b))

/-- Row comparison for `sort_values('best_test_accuracy', ascending=False)`
once the column index `i` is fixed: a row comes first when its key is
at least the other's. -/
def rowGE (i : Nat) (r1 r2 : List Value) : Prop :=
  keyLE (cellAt r2 i) (cellAt r1 i) = true

instance (i : Nat) : DecidableRel (rowGE i) := fun r1 r2 => by
  unfold rowGE; infer_instance

/-- Lines 76-77: sort descending by `best_test_accuracy` when that
column survived, otherwise leave the order unchanged. -/
def sortStage (t : Table) : Table :=
  match t.cols.indexOf? "best_test_accuracy" with
  | none => t
  | some i => { cols := t.cols, rows := t.rows.insertionSort (rowGE i) }

/-- The warning of lines 45-48: emitted exactly when fewer columns are
available than desired, carrying the missing set and the input columns. -/
def warnOf (t : Table) : Option Warn :=
  if (availableCols t).length < desired_columns.length then
    some { missing := missingCols t, available := t.cols }
  else none

/-- `sanitize_and_select_columns`: column selection with a warning when
allow-listed columns are missing, numeric coercion, default filling,
id normalization and filtering, then the ranking sort. -/
def sanitize_and_select_columns (t : Table) : Except String (Option Warn × Table) :=
  (normalizeIdStage (fillnaStage (coerceStage (selectStage t)))).map
    (fun t2 => (warnOf t, sortStage t2))

/-- Combined effect of coercion (line 59) and default filling (line 62)
on one cell of column `c`. -/
def sanitizeCell (c : String) (v : Value) : Value :=
  match (if numeric_columns.contains c then to_numeric v else v), fillDefault c with
  | Value.vNaN, some d => d
  | w, _ => w

/-- The sanitized form of one input row: the available columns in
allow-list order, the id stringified and trimmed, every other cell
coerced and default-filled. -/
def processRow (t : Table) (r : List Value) : List Value :=
  (availableCols t).map (fun c =>
    if c = "model_id" then Value.vStr (pyStrip (pyStr (getCol t.cols r c)))
    else sanitizeCell c (getCol t.cols r c))

/-- The sanitized rows before the ranking sort: processed input rows
whose trimmed id (sitting at position 0) is non-empty. -/
def keptRows (t : Table) : List (List Value) :=
  (t.rows.map (processRow t)).filter (fun r => cellAt r 0 != Value.vStr "")

/-- Values of a named column, top to bottom (`df[c]`); `none` when the
column is absent (a `KeyError` in Python). -/
def columnValues (t : Table) (c : String) : Option (List Value) :=
  (t.cols.indexOf? c).map (fun i => t.rows.map (fun r => cellAt r i))

/-- `len(series.unique())`: number of distinct values in a column. -/
def uniqueCount (vs : List Value) : Nat := vs.dedup.length

/-- `series.max()`: maximum ignoring NaN; NaN on an all-NaN or empty
column.  Infinity dominates every number. -/
def seriesMax (vs : List Value) : Value :=
  vs.foldl (fun acc v =>
    match acc, v with
    | acc, Value.vNaN => acc
    | Value.vNaN, v => v
    | Value.vInf, _ => Value.vInf
    | _, Value.vInf => Value.vInf
    | Value.vNum a, Value.vNum b => Value.vNum (max a b)
    | acc, _ => acc) Value.vNaN

/-- `col.replace('_', ' ').title()`: humanized header text. -/
def humanize (c : String) : String :=
  String.intercalate " " (((c.replace "_" " ").splitOn " ").map String.capitalize)

/-- The data of the generated page that the claims speak about: the four
stat figures, the header cells, the column list embedded in the script,
and the DataTables default-sort configuration. -/
structure HtmlPage where
  totalModels : Nat
  datasetCount : Nat
  familyCount : Nat
  maxParameterCount : Value
  tableHeaders : List String
  jsColumns : List String
  defaultSortIndex : Nat
  defaultSortDescending : Bool
deriving DecidableEq, Repr

/-- `generate_html`: renders the stats block and the embedded script.
`dataset` and `model_family` are guarded by `if c in df.columns else 0`;
`df['parameter_count'].max()` is unguarded, so a table without that
column raises `KeyError` while the template string is being built
(before anything is written).  The sort option emitted is the literal
`order: [[4, 'desc']]`. -/
def generate_html (t : Table) : Except String HtmlPage :=
  match columnValues t "parameter_count" with
  | none => Except.error "KeyError: parameter_count"
  | some pvs => Except.ok
      { totalModels := t.rows.length
        datasetCount :=
          match columnValues t "dataset" with
          | some vs => uniqueCount vs
          | none => 0
        familyCount :=
          match columnValues t "model_family" with
          | some vs => uniqueCount vs
          | none => 0
        maxParameterCount := seriesMax pvs
        tableHeaders := t.cols.map humanize
        jsColumns := t.cols
        defaultSortIndex := 4
        defaultSortDescending := true }

/-- The candidate input paths of `main`, in priority order. -/
def data_paths : List String :=
  ["experiment_results.csv", "experiment_results.pkl", "experiment_results.pickle"]

/-- The input-discovery loop of `main`: first existing candidate. -/
def findDataPath (pathExists : String → Bool) : Option String :=
  data_paths.find? pathExists

/-- The early-exit check of `main`: when no candidate exists, the error
message names every checked path and the process exits with code 1;
otherwise the chosen path is returned and the run continues. -/
def mainPathCheck (pathExists : String → Bool) : Except (Nat × List String) String :=
  match findDataPath pathExists with
  | some p => Except.ok p
  | none => Except.error
      (1, "Error: No experiment data file found. Expected one of:" :: data_paths.map (fun p => "  " ++ p))

/-- Directories `main` creates: `site/data` is made (with parents) only
after the input check has succeeded — `mkdir` on line 342 follows the
`sys.exit(1)` on line 333. -/
def mainDirsCreated (pathExists : String → Bool) : List String :=
  match findDataPath pathExists with
  | some _ => ["site", "site/data"]
  | none => []

/-- Cell text written by `to_csv`: NaN becomes the empty field, numbers
and infinity their reprs, strings are written as-is (CSV quoting is
transparent to a read-back). -/
def csvCell : Value → String
  | Value.vNaN => ""
  | v => pyStr v

/-- The NA tokens `read_csv` recognizes (representative subset of the
pandas default list). -/
def naTokens : List String :=
  ["", "nan", "NaN", "NAN", "NA", "N/A", "n/a", "null", "NULL", "None"]

/-- Column-level type inference of `read_csv`: a column is read as
numeric when every non-NA field parses as a number. -/
def csvColNumeric (fields : List String) : Bool :=
  fields.all (fun s => naTokens.contains s || (parsePyNumber s).isSome)

/-- One field as `read_csv` materializes it, given the column's
inferred kind. -/
def readCsvField (numeric : Bool) (s : String) : Value :=
  if naTokens.contains s then Value.vNaN
  else if numeric then
    match parsePyNumber s with
    | some q => Value.vNum q
    | none => Value.vNaN
  else Value.vStr s

/-- `to_csv` followed by `read_csv` on the same file: per column, the
written fields are re-read under that column's inferred kind; the
header (and hence the column list) and the row count and order are
those of the written table. -/
def csvRoundTrip (t : Table) : Table :=
  { cols := t.cols
    rows := t.rows.map (fun r =>
      (List.range t.cols.length).map (fun j =>
        readCsvField
          (csvColNumeric (t.rows.map (fun r' => csvCell (cellAt r' j))))
          (csvCell (cellAt r j)))) }

/-- The `model_id` column of a table (empty when absent). -/
def modelIds (t : Table) : List Value :=
  (columnValues t "model_id").getD []

/-! ## Concrete tables used in counterexamples and witnesses -/

/-- Sanitized-shaped table lacking `parameter_count` (from an input with
only `model_id` and `dataset`). -/
def tblC1 : Table :=
  { cols := ["model_id", "dataset"], rows := [[Value.vStr "m1", Value.vStr "d1"]] }

/-- Table without `parameter_count`, for the error branch of the
emitter guard theorem. -/
def tblC1e : Table :=
  { cols := ["model_id", "dataset"], rows := [[Value.vStr "m2", Value.vStr "d2"]] }

/-- Table with `parameter_count` but no `dataset`/`model_family`, for
the degrading branch of the emitter guard theorem. -/
def tblC1k : Table :=
  { cols := ["model_id", "parameter_count"], rows := [[Value.vStr "m1", Value.vNum 1000]] }

/-- Input table without `model_id`. -/
def tblC2 : Table :=
  { cols := ["dataset"], rows := [[Value.vStr "d1"]] }

/-- Input table with `model_id` but missing other allow-listed columns. -/
def tblC2w : Table :=
  { cols := ["model_id", "dataset"], rows := [[Value.vStr "m1", Value.vStr "d1"]] }

/-- Input with every allow-listed column, one row. -/
def tblC3 : Table :=
  { cols := ["model_id", "dataset", "model_family", "model_type",
             "best_val_accuracy", "best_test_accuracy", "val_loss", "test_loss",
             "parameter_count", "training_time_hours"]
    rows := [[Value.vStr "m1", Value.vStr "d1", Value.vStr "f1", Value.vStr "t1",
              Value.vNum (mkRat 1 2), Value.vNum (mkRat 3 5), Value.vNum 1, Value.vNum 2,
              Value.vNum 1000, Value.vNum 3]] }

/-- The sanitized form of `tblC3`. -/
def sanC3 : Table :=
  match sanitize_and_select_columns tblC3 with
  | Except.ok p => p.2
  | Except.error _ => { cols := [], rows := [] }

/-- Input table without `model_id`, with a numeric column. -/
def tblC4 : Table :=
  { cols := ["dataset", "val_loss"], rows := [[Value.vStr "d", Value.vNum 1]] }

/-- Input table with `model_id` and one more column. -/
def tblC4w : Table :=
  { cols := ["model_id", "best_test_accuracy"], rows := [[Value.vStr "m", Value.vNum 1]] }

/-- Input with one whitespace-only id and a duplicated id. -/
def tblC5 : Table :=
  { cols := ["model_id"]
    rows := [[Value.vStr "   "], [Value.vStr "x"], [Value.vStr "x"]] }

/-- Input with a non-numeric `val_loss` cell. -/
def tblC6 : Table :=
  { cols := ["model_id", "val_loss"], rows := [[Value.vStr "m1", Value.vStr "n/a"]] }

/-- The sorting example: ids `A`, `B`, `C` with accuracies 0.9, 0.2, 0.75. -/
def tblC7 : Table :=
  { cols := ["model_id", "best_test_accuracy"]
    rows := [[Value.vStr "A", Value.vNum (mkRat 9 10)],
             [Value.vStr "B", Value.vNum (mkRat 1 5)],
             [Value.vStr "C", Value.vNum (mkRat 3 4)]] }

/-- Input whose single row has a missing (NaN) `model_id`. -/
def tblC9 : Table :=
  { cols := ["model_id"], rows := [[Value.vNaN]] }

/-- Sanitized-shaped table with an ordinary string id. -/
def tblC9w : Table :=
  { cols := ["model_id"], rows := [[Value.vStr "m1"]] }

/-- Input with a NaN `model_id` next to an ordinary column. -/
def tblC10 : Table :=
  { cols := ["model_id", "dataset"], rows := [[Value.vNaN, Value.vStr "d1"]] }

/-! ## Helper lemmas -/

lemma zipWith_map_self {α β γ : Type} (f : α → β → γ) (g : α → β) (l : List α) :
    List.zipWith f l (l.map g) = l.map (fun a => f a (g a)) := by
  induction l with
  | nil => rfl
  | cons a tl ih => simp [ih]

lemma filter_map_comm {α β : Type} (p : β → Bool) (f : α → β) (l : List α) :
    (l.map f).filter p = (l.filter (fun x => p (f x))).map f := by
  induction l with
  | nil => rfl
  | cons a tl ih =>
    simp only [List.map_cons, List.filter_cons]
    cases h : p (f a) <;> simp [h, ih]

lemma getCol_map_self (cols : List String) (f : String → Value) (c : String)
    (h : c ∈ cols) : getCol cols (cols.map f) c = f c := by
  induction cols with
  | nil => cases h
  | cons a tl ih =>
    simp only [List.map_cons, getCol]
    by_cases hac : a = c
    · simp [hac]
    · have h' : c ∈ tl := by
        rcases List.mem_cons.mp h with h1 | h1
        · exact absurd h1.symm hac
        · exact h1
      simp [hac, ih h']

lemma indexOf?_some_lt (c : String) :
    ∀ (l : List String) (i : Nat), l.indexOf? c = some i → i < l.length := by
  intro l
  induction l with
  | nil => intro i h; simp [List.indexOf?_nil] at h
  | cons a tl ih =>
    intro i h
    rw [List.indexOf?_cons] at h
    by_cases hac : a == c
    · simp [hac] at h
      simp [List.length_cons]
      omega
    · simp [hac] at h
      obtain ⟨j, hj, rfl⟩ := h
      have := ih j hj
      simp [List.length_cons]
      omega

lemma sanitizeCell_model_id (v : Value) : sanitizeCell "model_id" v = v := by
  cases v <;> rfl

lemma availableCols_cons (t : Table) (h : "model_id" ∈ t.cols) :
    availableCols t = "model_id" :: restColumns.filter (fun c => t.cols.contains c) := by
  unfold availableCols desired_columns restColumns
  rw [List.filter_cons]
  simp [List.elem_iff.mpr h]
  exact h

lemma mem_restFilter_ne (t : Table) (c : String)
    (h : c ∈ restColumns.filter (fun c => t.cols.contains c)) : c ≠ "model_id" := by
  have hmem : c ∈ restColumns := List.mem_of_mem_filter h
  intro he
  subst he
  revert hmem
  decide

lemma pipeline_eq (t : Table) :
    fillnaStage (coerceStage (selectStage t)) =
      { cols := availableCols t
        rows := t.rows.map (fun r =>
          (availableCols t).map (fun c => sanitizeCell c (getCol t.cols r c))) } := by
  unfold fillnaStage coerceStage selectStage sanitizeCell
  simp only [List.map_map]
  congr 1
  apply List.map_congr_left
  intro r _
  simp only [Function.comp]
  rw [zipWith_map_self, zipWith_map_self]

lemma processRow_eq (t : Table) (h : "model_id" ∈ t.cols) (r : List Value) :
    processRow t r
      = Value.vStr (pyStrip (pyStr (getCol t.cols r "model_id")))
        :: (restColumns.filter (fun c => t.cols.contains c)).map
             (fun c => sanitizeCell c (getCol t.cols r c)) := by
  unfold processRow
  rw [availableCols_cons t h]
  simp only [List.map_cons, if_pos]
  congr 1
  apply List.map_congr_left
  intro c hc
  rw [if_neg (mem_restFilter_ne t c hc)]

lemma normalizeId_eq (t : Table) (h : "model_id" ∈ t.cols) :
    normalizeIdStage (fillnaStage (coerceStage (selectStage t))) =
      Except.ok { cols := availableCols t, rows := keptRows t } := by
  have hidx : (availableCols t).indexOf? "model_id" = some 0 := by
    rw [availableCols_cons t h, List.indexOf?_cons]
    simp
  rw [pipeline_eq]
  unfold normalizeIdStage
  dsimp only
  rw [hidx]
  dsimp only
  congr 1
  unfold keptRows
  congr 1
  congr 1
  rw [List.map_map]
  apply List.map_congr_left
  intro r _
  simp only [Function.comp]
  rw [processRow_eq t h r, availableCols_cons t h]
  simp [cellAt, sanitizeCell_model_id]

theorem sanitize_eq (t : Table) (h : "model_id" ∈ t.cols) :
    sanitize_and_select_columns t =
      Except.ok (warnOf t, sortStage { cols := availableCols t, rows := keptRows t }) := by
  unfold sanitize_and_select_columns
  rw [normalizeId_eq t h]
  rfl

lemma sanitize_err (t : Table) (h : "model_id" ∉ t.cols) :
    sanitize_and_select_columns t = Except.error "KeyError: model_id" := by
  unfold sanitize_and_select_columns
  have hidx : (fillnaStage (coerceStage (selectStage t))).cols.indexOf? "model_id" = none := by
    have hc : (fillnaStage (coerceStage (selectStage t))).cols = availableCols t := rfl
    rw [hc, List.indexOf?_eq_none_iff]
    intro c hcmem hbeq
    have hc2 : c = "model_id" := by simpa using hbeq
    subst hc2
    have hcon : t.cols.contains "model_id" = true := List.of_mem_filter hcmem
    exact h (List.elem_iff.mp hcon)
  unfold normalizeIdStage
  rw [hidx]
  rfl

lemma keyLE_iff (a b : Value) :
    keyLE a b = true ↔ (rankOf a < rankOf b ∨ (rankOf a = rankOf b ∧ qOf a ≤ qOf b)) := by
  unfold keyLE
  simp [Bool.or_eq_true, Bool.and_eq_true, decide_eq_true_eq, beq_iff_eq]

lemma keyLE_total (a b : Value) : keyLE a b = true ∨ keyLE b a = true := by
  rw [keyLE_iff, keyLE_iff]
  rcases Nat.lt_trichotomy (rankOf a) (rankOf b) with h | h | h
  · exact Or.inl (Or.inl h)
  · rcases le_total (qOf a) (qOf b) with hq | hq
    · exact Or.inl (Or.inr ⟨h, hq⟩)
    · exact Or.inr (Or.inr ⟨h.symm, hq⟩)
  · exact Or.inr (Or.inl h)

lemma keyLE_trans (a b c : Value) (h1 : keyLE a b = true) (h2 : keyLE b c = true) :
    keyLE a c = true := by
  rw [keyLE_iff] at h1 h2 ⊢
  rcases h1 with h1 | ⟨h1, h1q⟩ <;> rcases h2 with h2 | ⟨h2, h2q⟩
  · exact Or.inl (h1.trans h2)
  · exact Or.inl (h2 ▸ h1)
  · exact Or.inl (h1 ▸ h2)
  · exact Or.inr ⟨h1.trans h2, h1q.trans h2q⟩

lemma rowGE_total (i : Nat) (r1 r2 : List Value) : rowGE i r1 r2 ∨ rowGE i r2 r1 :=
  (keyLE_total (cellAt r2 i) (cellAt r1 i)).elim Or.inl Or.inr

lemma rowGE_trans (i : Nat) (r1 r2 r3 : List Value)
    (h1 : rowGE i r1 r2) (h2 : rowGE i r2 r3) : rowGE i r1 r3 :=
  keyLE_trans _ _ _ h2 h1

lemma sortStage_cols (t : Table) : (sortStage t).cols = t.cols := by
  unfold sortStage
  cases t.cols.indexOf? "best_test_accuracy" <;> rfl

lemma sortStage_rows_perm (t : Table) : (sortStage t).rows.Perm t.rows := by
  unfold sortStage
  cases t.cols.indexOf? "best_test_accuracy"
  · exact List.Perm.refl _
  · exact List.perm_insertionSort _ _

lemma sortStage_sorted (t : Table) (i : Nat)
    (h : t.cols.indexOf? "best_test_accuracy" = some i) :
    (sortStage t).rows.Sorted (rowGE i) := by
  unfold sortStage
  rw [h]
  letI : IsTotal (List Value) (rowGE i) := ⟨rowGE_total i⟩
  letI : IsTrans (List Value) (rowGE i) := ⟨rowGE_trans i⟩
  exact List.sorted_insertionSort _ _

lemma sortStage_rows_none (t : Table)
    (h : t.cols.indexOf? "best_test_accuracy" = none) :
    (sortStage t).rows = t.rows := by
  unfold sortStage
  rw [h]

lemma filter_not_length {α : Type} (p : α → Bool) (l : List α) :
    (l.filter p).length + (l.filter (fun a => !p a)).length = l.length := by
  induction l with
  | nil => rfl
  | cons a tl ih =>
    cases h : p a <;> simp [List.filter_cons, h, ← ih] <;> omega

lemma missing_iff (t : Table) :
    (availableCols t).length < desired_columns.length ↔ missingCols t ≠ [] := by
  have hsum : (availableCols t).length + (missingCols t).length = desired_columns.length :=
    filter_not_length (fun c => t.cols.contains c) desired_columns
  constructor
  · intro hlt he
    rw [he] at hsum
    simp at hsum
    omega
  · intro hne
    have hpos : 0 < (missingCols t).length := by
      cases hcase : missingCols t with
      | nil => exact absurd hcase hne
      | cons a tl => simp [hcase]
    omega

lemma all_false_of_mem {α : Type} (l : List α) (p : α → Bool) (x : α)
    (hx : x ∈ l) (hp : p x = false) : l.all p = false := by
  cases h : l.all p with
  | false => rfl
  | true =>
    have := List.all_eq_true.mp h x hx
    rw [hp] at this
    exact absurd this (by simp)

lemma vStr_bne_empty (a : String) : (Value.vStr a != Value.vStr "") = (a != "") := by
  by_cases ha : a = ""
  · simp [ha]
  · have h1 : Value.vStr a ≠ Value.vStr "" := fun he => ha (by injection he)
    simp [bne, beq_eq_false_iff_ne.mpr h1, beq_eq_false_iff_ne.mpr ha]

lemma cellAt_processRow_zero (t : Table) (h : "model_id" ∈ t.cols) (r : List Value) :
    cellAt (processRow t r) 0 = Value.vStr (pyStrip (pyStr (getCol t.cols r "model_id"))) := by
  rw [processRow_eq t h r]
  rfl

lemma keptRows_eq (t : Table) (h : "model_id" ∈ t.cols) :
    keptRows t = (t.rows.filter
      (fun r => (pyStrip (pyStr (getCol t.cols r "model_id"))) != "")).map (processRow t) := by
  unfold keptRows
  rw [filter_map_comm]
  congr 1
  apply List.filter_congr
  intro r _
  rw [cellAt_processRow_zero t h r, vStr_bne_empty]

lemma processRow_mem_sorted (t : Table) (h : "model_id" ∈ t.cols) (r : List Value)
    (hr : r ∈ t.rows) (hid : (pyStrip (pyStr (getCol t.cols r "model_id"))) ≠ "") :
    processRow t r ∈ (sortStage { cols := availableCols t, rows := keptRows t }).rows := by
  apply (sortStage_rows_perm _).mem_iff.mpr
  show processRow t r ∈ keptRows t
  unfold keptRows
  apply List.mem_filter.mpr
  refine ⟨List.mem_map_of_mem _ hr, ?_⟩
  rw [cellAt_processRow_zero t h r, vStr_bne_empty]
  simpa using hid

lemma getCol_processRow_id (t : Table) (h : "model_id" ∈ t.cols) (r : List Value) :
    getCol (availableCols t) (processRow t r) "model_id"
      = Value.vStr (pyStrip (pyStr (getCol t.cols r "model_id"))) := by
  rw [availableCols_cons t h, processRow_eq t h r]
  simp [getCol]

lemma getCol_processRow (t : Table) (r : List Value) (c : String)
    (hcd : c ∈ desired_columns) (hct : c ∈ t.cols) (hcne : c ≠ "model_id") :
    getCol (availableCols t) (processRow t r) c = sanitizeCell c (getCol t.cols r c) := by
  have hmem : c ∈ availableCols t :=
    List.mem_filter.mpr ⟨hcd, List.elem_iff.mpr hct⟩
  unfold processRow
  rw [getCol_map_self _ _ _ hmem, if_neg hcne]

lemma numeric_subset_desired : ∀ c ∈ numeric_columns, c ∈ desired_columns := by decide

lemma numeric_ne_model_id : ∀ c ∈ numeric_columns, c ≠ "model_id" := by decide

lemma sanitizeCell_fail (c : String) (s : String) (hc : c ∈ numeric_columns)
    (hfail : parsePyNumber s = none) :
    sanitizeCell c (Value.vStr s) = (fillDefault c).getD Value.vNaN := by
  have hnum : to_numeric (Value.vStr s) = Value.vNaN := by
    simp [to_numeric, hfail]
  unfold sanitizeCell
  simp only [List.elem_iff.mpr hc, if_true]
  rw [hnum]
  cases hfd : fillDefault c <;> simp [hfd]

lemma columnValues_none_iff (t : Table) (c : String) :
    columnValues t c = none ↔ c ∉ t.cols := by
  unfold columnValues
  rw [Option.map_eq_none', List.indexOf?_eq_none_iff]
  constructor
  · intro hall hc
    exact hall c hc (by simp)
  · intro hnc x hx hbeq
    have hxc : x = c := by simpa using hbeq
    exact hnc (hxc ▸ hx)

lemma modelIds_eq (t : Table) (i : Nat) (hidx : t.cols.indexOf? "model_id" = some i) :
    modelIds t = t.rows.map (fun r => cellAt r i) := by
  unfold modelIds columnValues
  rw [hidx]
  rfl

/-! ## Claim theorems -/

/-- Claim C4 (amended: the input must contain `model_id`, since the
sanitizer raises a `KeyError` otherwise): the sanitizer's output column
list is exactly the allow-list filtered to the input's columns — the
intersection, in allow-list order — and the missing set together with
the input's full column list is logged exactly when the intersection is
proper. -/
theorem sanitize_output_columns (t : Table) (h : "model_id" ∈ t.cols) :
    ∃ w t', sanitize_and_select_columns t = Except.ok (w, t')
      ∧ t'.cols = desired_columns.filter (fun c => t.cols.contains c)
      ∧ (∀ c, c ∈ t'.cols ↔ (c ∈ desired_columns ∧ c ∈ t.cols))
      ∧ (missingCols t ≠ [] → w = some { missing := missingCols t, available := t.cols })
      ∧ (missingCols t = [] → w = none) := by
  refine ⟨warnOf t, _, sanitize_eq t h, ?_, ?_, ?_, ?_⟩
  · rw [sortStage_cols]
    rfl
  · intro c
    rw [sortStage_cols]
    show c ∈ availableCols t ↔ _
    unfold availableCols
    rw [List.mem_filter]
    simp [List.elem_iff]
  · intro hne
    unfold warnOf
    rw [if_pos ((missing_iff t).mpr hne)]
  · intro he
    unfold warnOf
    exact if_neg (fun hlt => ((missing_iff t).mp hlt) he)

/-- Claim C4, witness at a concrete input containing `model_id` and
`best_test_accuracy` only. -/
theorem sanitize_output_columns_witness :
    "model_id" ∈ tblC4w.cols
    ∧ (∃ w t', sanitize_and_select_columns tblC4w = Except.ok (w, t')
        ∧ t'.cols = desired_columns.filter (fun c => tblC4w.cols.contains c)
        ∧ (∀ c, c ∈ t'.cols ↔ (c ∈ desired_columns ∧ c ∈ tblC4w.cols))
        ∧ (missingCols tblC4w ≠ [] →
            w = some { missing := missingCols tblC4w, available := tblC4w.cols })
        ∧ (missingCols tblC4w = [] → w = none)) :=
  ⟨by decide, sanitize_output_columns tblC4w (by decide)⟩

/-- Claim C4, counterexample to the unamended claim: on an input table
without `model_id` the sanitizer does not return any output table at
all — it raises a `KeyError` — so "for every input table, the
sanitizer's output column set is the intersection" fails. -/
theorem sanitize_output_columns_cex :
    sanitize_and_select_columns tblC4 = Except.error "KeyError: model_id" :=
  sanitize_err tblC4 (by decide)

/-- Claim C2 (amended: except for the identifier column `model_id`
itself — when that one is absent the sanitizer raises a `KeyError`
instead of proceeding): on an input missing allow-listed columns, the
sanitizer logs the missing set and the available columns and returns a
reduced table. -/
theorem sanitize_schema_mismatch (t : Table) :
    ("model_id" ∈ t.cols → missingCols t ≠ [] →
      ∃ t', sanitize_and_select_columns t
          = Except.ok (some { missing := missingCols t, available := t.cols }, t'))
    ∧ ("model_id" ∉ t.cols →
        sanitize_and_select_columns t = Except.error "KeyError: model_id") := by
  constructor
  · intro h hne
    have hs := sanitize_eq t h
    unfold warnOf at hs
    rw [if_pos ((missing_iff t).mpr hne)] at hs
    exact ⟨_, hs⟩
  · exact sanitize_err t

/-- Claim C2, witness: both branches at concrete inputs. -/
theorem sanitize_schema_mismatch_witness :
    ("model_id" ∈ tblC2w.cols ∧ missingCols tblC2w ≠ []
      ∧ ∃ t', sanitize_and_select_columns tblC2w
          = Except.ok (some { missing := missingCols tblC2w, available := tblC2w.cols }, t'))
    ∧ ("model_id" ∉ tblC2.cols
      ∧ sanitize_and_select_columns tblC2 = Except.error "KeyError: model_id") :=
  ⟨⟨by decide, by decide,
    (sanitize_schema_mismatch tblC2w).1 (by decide) (by decide)⟩,
   ⟨by decide, (sanitize_schema_mismatch tblC2).2 (by decide)⟩⟩

/-- Claim C2, counterexample to the unamended claim (which includes
`model_id` among the columns whose absence is tolerated): with
`model_id` absent the sanitizer raises instead of returning a reduced
table. -/
theorem sanitize_schema_mismatch_cex :
    sanitize_and_select_columns tblC2 = Except.error "KeyError: model_id" :=
  sanitize_err tblC2 (by decide)

/-- Claim C5: a row whose id is empty or whitespace-only after string
conversion and trimming is absent from the sanitized output, and the
output rows are exactly the processed forms of the rows with non-empty
trimmed ids, with multiplicity — duplicates pass through, nothing is
deduplicated. -/
theorem sanitize_id_rows (t : Table) (h : "model_id" ∈ t.cols) :
    ∃ w t', sanitize_and_select_columns t = Except.ok (w, t')
      ∧ t'.rows.Perm
          ((t.rows.filter
              (fun r => (pyStrip (pyStr (getCol t.cols r "model_id"))) != "")).map (processRow t))
      ∧ (∀ r ∈ t.rows, (pyStrip (pyStr (getCol t.cols r "model_id"))) = "" →
          processRow t r ∉ t'.rows) := by
  refine ⟨warnOf t, _, sanitize_eq t h, ?_, ?_⟩
  · rw [← keptRows_eq t h]
    exact sortStage_rows_perm _
  · intro r _ hempty hmem
    have hmem2 : processRow t r ∈ keptRows t :=
      (sortStage_rows_perm _).mem_iff.mp hmem
    rw [keptRows_eq t h] at hmem2
    obtain ⟨r2, hr2f, heq⟩ := List.mem_map.mp hmem2
    have hkept := (List.mem_filter.mp hr2f).2
    have hh : cellAt (processRow t r2) 0 = cellAt (processRow t r) 0 := by rw [heq]
    rw [cellAt_processRow_zero t h r2, cellAt_processRow_zero t h r, hempty] at hh
    have htrim2 : (pyStrip (pyStr (getCol t.cols r2 "model_id"))) = "" := by
      injection hh
    rw [htrim2] at hkept
    simp at hkept

/-- Claim C5, witness: a whitespace-only id is dropped while a
duplicated id `x` is kept twice. -/
theorem sanitize_id_rows_witness :
    "model_id" ∈ tblC5.cols
    ∧ (∃ w t', sanitize_and_select_columns tblC5 = Except.ok (w, t')
        ∧ t'.rows.Perm
            ((tblC5.rows.filter
                (fun r => (pyStrip (pyStr (getCol tblC5.cols r "model_id"))) != "")).map
              (processRow tblC5))
        ∧ (∀ r ∈ tblC5.rows, (pyStrip (pyStr (getCol tblC5.cols r "model_id"))) = "" →
            processRow tblC5 r ∉ t'.rows))
    ∧ (sanitize_and_select_columns tblC5).toOption.map (fun p => p.2.rows)
        = some [[Value.vStr "x"], [Value.vStr "x"]] :=
  ⟨by decide, sanitize_id_rows tblC5 (by decide), by rfl⟩

/-- Claim C6: a cell of a numeric-designated column that fails numeric
coercion is replaced by the column's designated default in the
sanitized output — `+inf` for the two loss columns, `0` for the two
accuracy columns, `parameter_count` and `training_time_hours` — rather
than raising. -/
theorem sanitize_coercion_default (t : Table) (c : String) (r : List Value) (s : String)
    (h : "model_id" ∈ t.cols) (hc : c ∈ numeric_columns) (hct : c ∈ t.cols)
    (hr : r ∈ t.rows) (hcell : getCol t.cols r c = Value.vStr s)
    (hfail : parsePyNumber s = none)
    (hid : pyStrip (pyStr (getCol t.cols r "model_id")) ≠ "") :
    ∃ w t', sanitize_and_select_columns t = Except.ok (w, t')
      ∧ processRow t r ∈ t'.rows
      ∧ getCol t'.cols (processRow t r) c = (fillDefault c).getD Value.vNaN
      ∧ ((c = "val_loss" ∨ c = "test_loss") →
          getCol t'.cols (processRow t r) c = Value.vInf)
      ∧ ((c = "best_val_accuracy" ∨ c = "best_test_accuracy"
            ∨ c = "parameter_count" ∨ c = "training_time_hours") →
          getCol t'.cols (processRow t r) c = Value.vNum 0) := by
  have hcols : (sortStage { cols := availableCols t, rows := keptRows t }).cols
      = availableCols t := sortStage_cols _
  have hval : getCol (sortStage { cols := availableCols t, rows := keptRows t }).cols
      (processRow t r) c = (fillDefault c).getD Value.vNaN := by
    rw [hcols,
      getCol_processRow t r c (numeric_subset_desired c hc) hct (numeric_ne_model_id c hc),
      hcell, sanitizeCell_fail c s hc hfail]
  refine ⟨warnOf t, _, sanitize_eq t h, processRow_mem_sorted t h r hr hid, hval, ?_, ?_⟩
  · rintro (rfl | rfl) <;> simpa [fillDefault] using hval
  · rintro (rfl | rfl | rfl | rfl) <;> simpa [fillDefault] using hval

/-- Claim C6, witness: the string `"n/a"` in `val_loss` becomes `+inf`. -/
theorem sanitize_coercion_default_witness :
    ("model_id" ∈ tblC6.cols ∧ "val_loss" ∈ numeric_columns ∧ "val_loss" ∈ tblC6.cols
      ∧ [Value.vStr "m1", Value.vStr "n/a"] ∈ tblC6.rows
      ∧ getCol tblC6.cols [Value.vStr "m1", Value.vStr "n/a"] "val_loss" = Value.vStr "n/a"
      ∧ parsePyNumber "n/a" = none
      ∧ pyStrip (pyStr (getCol tblC6.cols [Value.vStr "m1", Value.vStr "n/a"] "model_id")) ≠ "")
    ∧ (∃ w t', sanitize_and_select_columns tblC6 = Except.ok (w, t')
        ∧ processRow tblC6 [Value.vStr "m1", Value.vStr "n/a"] ∈ t'.rows
        ∧ getCol t'.cols (processRow tblC6 [Value.vStr "m1", Value.vStr "n/a"]) "val_loss"
            = (fillDefault "val_loss").getD Value.vNaN
        ∧ (("val_loss" = "val_loss" ∨ "val_loss" = "test_loss") →
            getCol t'.cols (processRow tblC6 [Value.vStr "m1", Value.vStr "n/a"]) "val_loss"
              = Value.vInf)
        ∧ (("val_loss" = "best_val_accuracy" ∨ "val_loss" = "best_test_accuracy"
              ∨ "val_loss" = "parameter_count" ∨ "val_loss" = "training_time_hours") →
            getCol t'.cols (processRow tblC6 [Value.vStr "m1", Value.vStr "n/a"]) "val_loss"
              = Value.vNum 0)) :=
  ⟨⟨by decide, by decide, by decide, by decide, by rfl, by rfl, by decide⟩,
   sanitize_coercion_default tblC6 "val_loss" [Value.vStr "m1", Value.vStr "n/a"] "n/a"
     (by decide) (by decide) (by decide) (by decide) (by rfl) (by rfl) (by decide)⟩

/-- Claim C7: the sanitizer sorts the surviving rows in descending
order of `best_test_accuracy` (each row's key is at least the next
one's, NaN last) when that column is in the surviving column set, and
otherwise emits the kept rows as an order-preserving sublist of the
processed input rows. -/
theorem sanitize_sort_order (t : Table) (h : "model_id" ∈ t.cols) :
    ∃ w t', sanitize_and_select_columns t = Except.ok (w, t')
      ∧ (∀ i, t'.cols.indexOf? "best_test_accuracy" = some i →
          t'.rows.Sorted (rowGE i))
      ∧ (t'.cols.indexOf? "best_test_accuracy" = none →
          t'.rows.Sublist (t.rows.map (processRow t))) := by
  refine ⟨warnOf t, _, sanitize_eq t h, ?_, ?_⟩
  · intro i hi
    rw [sortStage_cols] at hi
    exact sortStage_sorted _ i hi
  · intro hnone
    rw [sortStage_cols] at hnone
    rw [sortStage_rows_none _ hnone]
    show List.Sublist (keptRows t) _
    unfold keptRows
    exact List.filter_sublist _

/-- Claim C7, witness: accuracies 0.9, 0.2, 0.75 for ids A, B, C come
out in the order A, C, B. -/
theorem sanitize_sort_order_witness :
    "model_id" ∈ tblC7.cols
    ∧ (∃ w t', sanitize_and_select_columns tblC7 = Except.ok (w, t')
        ∧ (∀ i, t'.cols.indexOf? "best_test_accuracy" = some i →
            t'.rows.Sorted (rowGE i))
        ∧ (t'.cols.indexOf? "best_test_accuracy" = none →
            t'.rows.Sublist (tblC7.rows.map (processRow tblC7))))
    ∧ (sanitize_and_select_columns tblC7).toOption.map (fun p => modelIds p.2)
        = some [Value.vStr "A", Value.vStr "C", Value.vStr "B"] :=
  ⟨by decide, sanitize_sort_order tblC7 (by decide), by rfl⟩

/-- Claim C10: a row whose `model_id` cell is missing (NaN) is turned
into the literal string `"nan"` by the string conversion, so the row is
retained in the sanitized output under identifier `"nan"` instead of
being dropped. -/
theorem sanitize_nan_id (t : Table) (r : List Value)
    (h : "model_id" ∈ t.cols) (hr : r ∈ t.rows)
    (hcell : getCol t.cols r "model_id" = Value.vNaN) :
    ∃ w t', sanitize_and_select_columns t = Except.ok (w, t')
      ∧ processRow t r ∈ t'.rows
      ∧ getCol t'.cols (processRow t r) "model_id" = Value.vStr "nan" := by
  have htrim : pyStrip (pyStr (getCol t.cols r "model_id")) = "nan" := by
    rw [hcell]
    rfl
  refine ⟨warnOf t, _, sanitize_eq t h,
    processRow_mem_sorted t h r hr (by rw [htrim]; decide), ?_⟩
  rw [sortStage_cols, getCol_processRow_id t h r, htrim]

/-- Claim C10, witness: a concrete row with a NaN id survives as `"nan"`. -/
theorem sanitize_nan_id_witness :
    ("model_id" ∈ tblC10.cols
      ∧ [Value.vNaN, Value.vStr "d1"] ∈ tblC10.rows
      ∧ getCol tblC10.cols [Value.vNaN, Value.vStr "d1"] "model_id" = Value.vNaN)
    ∧ (∃ w t', sanitize_and_select_columns tblC10 = Except.ok (w, t')
        ∧ processRow tblC10 [Value.vNaN, Value.vStr "d1"] ∈ t'.rows
        ∧ getCol t'.cols (processRow tblC10 [Value.vNaN, Value.vStr "d1"]) "model_id"
            = Value.vStr "nan") :=
  ⟨⟨by decide, by decide, by rfl⟩,
   sanitize_nan_id tblC10 [Value.vNaN, Value.vStr "d1"] (by decide) (by decide) (by rfl)⟩

/-- Claim C1 (amended: only the `dataset` and `model_family` stat
figures degrade — `parameter_count` is read without a guard, so its
absence makes the emitter raise a `KeyError` and fail the build). -/
theorem generate_html_stat_guards (t : Table) :
    ("parameter_count" ∉ t.cols →
      generate_html t = Except.error "KeyError: parameter_count")
    ∧ ("parameter_count" ∈ t.cols →
        ∃ page, generate_html t = Except.ok page
          ∧ ("dataset" ∉ t.cols → page.datasetCount = 0)
          ∧ ("model_family" ∉ t.cols → page.familyCount = 0)) := by
  constructor
  · intro hnp
    unfold generate_html
    rw [(columnValues_none_iff t "parameter_count").mpr hnp]
  · intro hp
    have hne : columnValues t "parameter_count" ≠ none :=
      fun he => ((columnValues_none_iff t "parameter_count").mp he) hp
    obtain ⟨vs, hvs⟩ := Option.ne_none_iff_exists'.mp hne
    unfold generate_html
    rw [hvs]
    refine ⟨_, rfl, ?_, ?_⟩
    · intro hnd
      show (match columnValues t "dataset" with
        | some vs => uniqueCount vs
        | none => 0) = 0
      rw [(columnValues_none_iff t "dataset").mpr hnd]
    · intro hnf
      show (match columnValues t "model_family" with
        | some vs => uniqueCount vs
        | none => 0) = 0
      rw [(columnValues_none_iff t "model_family").mpr hnf]

/-- Claim C1, witness: the emitter raises on a table without
`parameter_count` and degrades the `dataset`/`model_family` stats to
zero on a table that has `parameter_count` but lacks both. -/
theorem generate_html_stat_guards_witness :
    ("parameter_count" ∉ tblC1e.cols
      ∧ generate_html tblC1e = Except.error "KeyError: parameter_count")
    ∧ ("parameter_count" ∈ tblC1k.cols
      ∧ ∃ page, generate_html tblC1k = Except.ok page
          ∧ ("dataset" ∉ tblC1k.cols → page.datasetCount = 0)
          ∧ ("model_family" ∉ tblC1k.cols → page.familyCount = 0)) :=
  ⟨⟨by decide, (generate_html_stat_guards tblC1e).1 (by decide)⟩,
   ⟨by decide, (generate_html_stat_guards tblC1k).2 (by decide)⟩⟩

/-- Claim C1, counterexample to the claim as stated: an actually
sanitized table lacking `parameter_count` makes the HTML emitter raise
a `KeyError` instead of succeeding with a degraded stat figure. -/
theorem generate_html_stat_guards_cex :
    (sanitize_and_select_columns tblC1).toOption.map (fun p => generate_html p.2)
      = some (Except.error "KeyError: parameter_count") := by
  rfl

/-- Claim C3 (code bug): on the sanitized table retaining all ten
allow-listed columns, `best_test_accuracy` sits at position 5 of the
retained column list, but the page's embedded DataTables configuration
hardcodes the default sort as `order: [[4, 'desc']]` — position 4, the
`best_val_accuracy` column — despite the code's own comment saying it
sorts by test accuracy. -/
theorem default_sort_index_mismatch :
    sanC3.cols = desired_columns
    ∧ sanC3.cols.indexOf? "best_test_accuracy" = some 5
    ∧ (generate_html sanC3).toOption.map HtmlPage.defaultSortIndex = some 4
    ∧ (generate_html sanC3).toOption.map HtmlPage.defaultSortDescending = some true :=
  ⟨by rfl, by rfl, by rfl, by rfl⟩

/-- Claim C8: when no candidate input file exists, `main` prints a
message naming every checked candidate path, exits with code 1, and
creates no output directory. -/
theorem main_missing_input (pathExists : String → Bool)
    (h : ∀ p ∈ data_paths, pathExists p = false) :
    mainPathCheck pathExists
        = Except.error (1,
            ["Error: No experiment data file found. Expected one of:",
             "  experiment_results.csv", "  experiment_results.pkl",
             "  experiment_results.pickle"])
    ∧ (∀ p ∈ data_paths,
        ("  " ++ p) ∈ ["Error: No experiment data file found. Expected one of:",
                       "  experiment_results.csv", "  experiment_results.pkl",
                       "  experiment_results.pickle"])
    ∧ mainDirsCreated pathExists = [] := by
  have hfind : findDataPath pathExists = none := by
    unfold findDataPath
    rw [List.find?_eq_none]
    intro x hx
    rw [h x hx]
    simp
  refine ⟨?_, ?_, ?_⟩
  · unfold mainPathCheck
    rw [hfind]
    rfl
  · intro p hp
    fin_cases hp <;> decide
  · unfold mainDirsCreated
    rw [hfind]

/-- Claim C8, witness: an empty filesystem. -/
theorem main_missing_input_witness :
    (∀ p ∈ data_paths, (fun _ => false : String → Bool) p = false)
    ∧ (mainPathCheck (fun _ => false)
          = Except.error (1,
              ["Error: No experiment data file found. Expected one of:",
               "  experiment_results.csv", "  experiment_results.pkl",
               "  experiment_results.pickle"])
      ∧ (∀ p ∈ data_paths,
          ("  " ++ p) ∈ ["Error: No experiment data file found. Expected one of:",
                         "  experiment_results.csv", "  experiment_results.pkl",
                         "  experiment_results.pickle"])
      ∧ mainDirsCreated (fun _ => false) = []) :=
  ⟨fun _ _ => rfl, main_missing_input (fun _ => false) (fun _ _ => rfl)⟩

/-- Claim C9 (amended: the round trip always preserves the row count
and order, and preserves the `model_id` values provided every id is a
string outside the CSV reader's NA-token set and at least one id does
not parse as a number; otherwise the reader re-types ids — NA tokens
become missing values, and an all-numeric id column is re-read as
numbers). -/
theorem csv_roundtrip_ids (t : Table) (i : Nat)
    (hidx : t.cols.indexOf? "model_id" = some i)
    (hstr : ∀ v ∈ modelIds t, ∃ s, v = Value.vStr s ∧ naTokens.contains s = false)
    (hobj : ∃ v ∈ modelIds t, ∃ s, v = Value.vStr s ∧ parsePyNumber s = none) :
    (csvRoundTrip t).rows.length = t.rows.length
    ∧ modelIds (csvRoundTrip t) = modelIds t := by
  have hlen : i < t.cols.length := indexOf?_some_lt _ _ _ hidx
  have hids : modelIds t = t.rows.map (fun r => cellAt r i) := modelIds_eq t i hidx
  have hflag : csvColNumeric (t.rows.map (fun r' => csvCell (cellAt r' i))) = false := by
    obtain ⟨v, hv, s, rfl, hparse⟩ := hobj
    obtain ⟨s', hss, hna⟩ := hstr _ hv
    have hseq : s = s' := by injection hss
    rw [← hseq] at hna
    rw [hids] at hv
    obtain ⟨r0, hr0, hcell0⟩ := List.mem_map.mp hv
    unfold csvColNumeric
    apply all_false_of_mem _ _ (csvCell (cellAt r0 i))
      (List.mem_map_of_mem (fun r' => csvCell (cellAt r' i)) hr0)
    rw [hcell0]
    show (naTokens.contains s || (parsePyNumber s).isSome) = false
    rw [hparse, hna]
    rfl
  constructor
  · unfold csvRoundTrip
    exact List.length_map _ _
  · have hids2 : modelIds (csvRoundTrip t)
        = (csvRoundTrip t).rows.map (fun r => cellAt r i) :=
      modelIds_eq _ i hidx
    rw [hids2, hids]
    show (t.rows.map _).map _ = _
    rw [List.map_map]
    apply List.map_congr_left
    intro r hr
    simp only [Function.comp]
    have hcell : cellAt ((List.range t.cols.length).map (fun j =>
        readCsvField (csvColNumeric (t.rows.map (fun r' => csvCell (cellAt r' j))))
          (csvCell (cellAt r j)))) i
        = readCsvField (csvColNumeric (t.rows.map (fun r' => csvCell (cellAt r' i))))
            (csvCell (cellAt r i)) := by
      unfold cellAt
      simp [List.getD, hlen]
    rw [hcell, hflag]
    have hmem : cellAt r i ∈ modelIds t := by
      rw [hids]
      exact List.mem_map_of_mem _ hr
    obtain ⟨s, hs, hna⟩ := hstr _ hmem
    rw [hs]
    show readCsvField false (csvCell (Value.vStr s)) = Value.vStr s
    have hcsv : csvCell (Value.vStr s) = s := rfl
    rw [hcsv]
    unfold readCsvField
    rw [hna]
    rfl

/-- Claim C9, witness: a one-row table with the ordinary id `m1`. -/
theorem csv_roundtrip_ids_witness :
    tblC9w.cols.indexOf? "model_id" = some 0
    ∧ ((csvRoundTrip tblC9w).rows.length = tblC9w.rows.length
        ∧ modelIds (csvRoundTrip tblC9w) = modelIds tblC9w) :=
  ⟨by rfl,
   csv_roundtrip_ids tblC9w 0 (by rfl)
     (by intro v hv
         have hm : modelIds tblC9w = [Value.vStr "m1"] := rfl
         rw [hm] at hv
         have hv' : v = Value.vStr "m1" := by simpa using hv
         exact ⟨"m1", hv', by decide⟩)
     ⟨Value.vStr "m1", by decide, "m1", rfl, by rfl⟩⟩

/-- Claim C9, counterexample to the claim as stated: sanitizing a row
with a missing id yields the literal id `"nan"`, and re-reading the
written CSV turns that id back into a missing value (NaN), so the
`model_id` values are not preserved by the round trip. -/
theorem csv_roundtrip_ids_cex :
    (sanitize_and_select_columns tblC9).toOption.map
        (fun p => (modelIds p.2, modelIds (csvRoundTrip p.2)))
      = some ([Value.vStr "nan"], [Value.vNaN])
    ∧ ([Value.vStr "nan"] : List Value) ≠ [Value.vNaN] :=
  ⟨by rfl, by decide⟩

end BuildSite
